import Mathlib

/-!
Verification development for the craving-mind-echoes core: a shallow
embedding, over the rationals, of the hedonic reward engine
(src/craving_ai/reward_engine.py), the homeostatic regulator
(src/craving_ai/homeostasis.py), the critical analyzer's novelty score
(src/craving_ai/analyzer.py) and the model-tier selection rule
(src/craving_ai/llm_wrapper.py).

Python floats are modelled as rationals; Python's two-argument min, max and
abs are modelled by the explicit conditionals pymin, pymax and pyabs.
Calls into external libraries (sklearn's TF-IDF vectorizer and cosine
similarity, difflib's SequenceMatcher.ratio, math.log2) are not repository
code; they are abstracted as explicit function or value parameters of the
embedded definitions, and the places where those libraries can raise are
modelled with Option results, as documented at each definition.
-/

/-! ## Python builtins shared by several embedded functions -/

/-- Python min(a, b): the first argument on ties. -/
def pymin (a b : ℚ) : ℚ := if a ≤ b then a else b

/-- Python max(a, b): the first argument on ties. -/
def pymax (a b : ℚ) : ℚ := if b ≤ a then a else b

/-- Python abs(a). -/
def pyabs (a : ℚ) : ℚ := if a < 0 then -a else a

/-- Python str.count for a non-empty pattern: the number of non-overlapping
occurrences, scanning left to right.  The fuel argument starts at the length
of the haystack, which suffices because every recursive step consumes at
least one character of the haystack. -/
def countOccAux (needle : List Char) : Nat → List Char → Nat
  | 0, _ => 0
  | _, [] => 0
  | fuel + 1, c :: rest =>
    if needle.isPrefixOf (c :: rest) then
      1 + countOccAux needle fuel (rest.drop (needle.length - 1))
    else
      countOccAux needle fuel rest

/-- Python str.count: occurrences of sub in s; Python counts an empty pattern
len(s) + 1 times. -/
def strCount (s sub : String) : Nat :=
  if sub.data = [] then s.data.length + 1
  else countOccAux sub.data s.data.length s.data

/-- Python str.lower, character by character (the inputs evaluated below are
ASCII, where Char.toLower agrees with Python). -/
def pyLower (s : String) : String := String.mk (s.data.map Char.toLower)

/-- Python str.split() with no separator: split on runs of whitespace and
drop the empty pieces. -/
def pySplit (s : String) : List String :=
  ((s.data.splitOnP (fun c => c.isWhitespace)).filter (fun w => w ≠ [])).map
    (fun w => String.mk w)

/-! ## RewardEngine (src/craving_ai/reward_engine.py) -/

/-- RewardMetrics (reward_engine.py lines 16-23). -/
structure RewardMetrics where
  novelty_score : ℚ
  relevance_score : ℚ
  entropy_score : ℚ
  coherence_score : ℚ
  emotional_intensity : ℚ
  deriving DecidableEq

/-- The RewardEngine.emotional_words table (reward_engine.py lines 35-41), in
the insertion order of the Python dict. -/
def emotional_words : List (String × List String) :=
  [("joy", ["joie", "bonheur", "euphorie", "ravissement", "extase"]),
   ("pain", ["douleur", "souffrance", "angoisse", "tourment", "affliction"]),
   ("curiosity", ["curiosité", "fascination", "intrigue", "mystère"]),
   ("frustration", ["frustration", "irritation", "agacement", "colère"]),
   ("wonder", ["émerveillement", "stupéfaction", "admiration"])]

/-- Python max(iterable, key=get) over an association list: the first key
whose count is maximal (a later key replaces the running best only when its
count is strictly greater), none for an empty list. -/
def maxKeyByCount : List (String × Nat) → Option String
  | [] => none
  | x :: xs => some ((xs.foldl (fun b y => if y.2 > b.2 then y else b) x).1)

/-- RewardEngine._detect_emotional_intensity (reward_engine.py lines
111-136): substring-count every emotion word in the lower-cased response,
sum per category, take the dominant category and the normalised total as
intensity.  The branch returning "neutre" mirrors the source's guard
"if not emotion_counts", which tests emptiness of the counts dict; the dict
always has the five keys, so the guard corresponds to maxKeyByCount = none,
which never holds here. -/
def detect_emotional_intensity (response : String) : ℚ × String :=
  let emotion_counts := emotional_words.map
    (fun ew => (ew.1, (ew.2.map (fun w => strCount (pyLower response) w)).sum))
  match maxKeyByCount emotion_counts with
  | none => (0, "neutre")
  | some dominant =>
      let total : ℕ := (emotion_counts.map (fun ec => ec.2)).sum
      (pymin 1 ((total : ℚ) / 20), dominant)

/-- An artifact descriptor: the Python Optional[Dict] with keys "type" and
"content"; a missing key is modelled as the empty string (Python dict-value
truthiness here is string non-emptiness). -/
structure Artifact where
  artifactType : String
  content : String

/-- RewardEngine.bonus_creation (reward_engine.py lines 138-158). -/
def bonus_creation : Option Artifact → ℚ
  | none => 0
  | some a =>
    if a.artifactType ≠ "" ∧ a.content ≠ "" then
      if a.content.length > 100 then 0.4
      else if a.content.length > 50 then 0.3
      else if a.content.length > 20 then 0.2
      else 0.1
    else 0

/-- RewardEngine._calculate_entropy (reward_engine.py lines 88-109).
math.log2 is a call into the Python math library and is abstracted as the
argument log2.  math.log2 raises ValueError on a non-positive argument; in
this function that happens exactly at the call math.log2(len(set(response)))
when the response is empty, modelled by the none result (every other log2
argument is a strictly positive character probability).  The character
probabilities are enumerated per distinct character; their order does not
matter to any property proved below. -/
def calculate_entropy (log2 : ℚ → ℚ) (response : String) : Option ℚ :=
  if response.data.dedup.length = 0 then none
  else
    let n : ℚ := response.data.length
    let probabilities := response.data.dedup.map
      (fun c => (response.data.count c : ℚ) / n)
    let entropy := -((probabilities.map (fun p => p * log2 p)).sum)
    let max_entropy := log2 ((response.data.dedup.length : ℚ))
    some (if max_entropy > 0 then entropy / max_entropy else 0)

/-- RewardEngine.calculate_reward (reward_engine.py lines 160-229).  The
novelty, relevance and entropy sub-computations call into sklearn and the
math library, so their results are abstracted as the rational parameters
novelty, relevance and entropy; the emotion detection and the coherence
score are computed concretely from the response.  The prompt only feeds the
abstracted relevance computation.  Returns the 4-tuple
(final_reward, emotion_tag, metrics, pain_level). -/
def calculate_reward (novelty relevance entropy : ℚ) (prompt response : String)
    (artifact : Option Artifact) : ℚ × String × RewardMetrics × ℚ :=
  let det := detect_emotional_intensity response
  let words := (pySplit response).length
  let coherence : ℚ := if words > 10 then pymin 1 ((words : ℚ) / 100) else 0.3
  let metrics : RewardMetrics :=
    ⟨novelty, relevance, entropy, coherence, det.1⟩
  let fr : ℚ × String :=
    if novelty < 0.35 then
      (-1, "douleur accablante")
    else
      let reward0 := 0.6 * novelty + 0.4 * relevance
      let reward1 :=
        match artifact with
        | some a => reward0 + bonus_creation (some a)
        | none => reward0
      let reward2 :=
        if det.2 = "pain" ∨ det.2 = "frustration" then reward1 - 0.2
        else if det.2 = "joy" ∨ det.2 = "wonder" then reward1 + 0.1
        else reward1
      (pymax (-1) (pymin 1 (reward2 * 2 - 1)), det.2)
  let pain_level := 1 - (fr.1 + 1) / 2
  (fr.1, fr.2, metrics, pain_level)

/-! ## Theorems about the reward engine -/

/-- C1: for every prompt and response (and any relevance, entropy and
artifact input), if the computed novelty score is strictly below 0.35 then
calculate_reward returns reward exactly -1 and the emotion tag
"douleur accablante"; the weighted formula, the creation bonus and the
emotion adjustment are bypassed, as witnessed by the result not depending on
relevance, the artifact or the detected emotion. -/
theorem reward_hard_gate (novelty relevance entropy : ℚ)
    (prompt response : String) (artifact : Option Artifact)
    (h : novelty < 0.35) :
    (calculate_reward novelty relevance entropy prompt response artifact).1
        = -1 ∧
    (calculate_reward novelty relevance entropy prompt response
        artifact).2.1 = "douleur accablante" := by
  simp [calculate_reward, h]

/-- Witness for reward_hard_gate at novelty 0, relevance 1, no artifact. -/
theorem reward_hard_gate_witness :
    (calculate_reward 0 1 0 "dis" "une réponse" none).1 = -1 ∧
    (calculate_reward 0 1 0 "dis" "une réponse" none).2.1 =
      "douleur accablante" :=
  reward_hard_gate 0 1 0 "dis" "une réponse" none (by norm_num)

/-- C2: for every input, the pain level returned by calculate_reward equals
1 - (final_reward + 1) / 2, where final_reward is the reward returned by the
same call; it is computed from that reward and nothing else. -/
theorem pain_level_inverse_of_reward (novelty relevance entropy : ℚ)
    (prompt response : String) (artifact : Option Artifact) :
    (calculate_reward novelty relevance entropy prompt response
        artifact).2.2.2 =
      1 - ((calculate_reward novelty relevance entropy prompt response
        artifact).1 + 1) / 2 := by
  unfold calculate_reward
  rfl

/-- C5 (code bug): on the empty response the entropy computation evaluates
math.log2(len(set(response))) = math.log2(0), which raises ValueError, for
any behaviour of math.log2 on positive inputs; the spec requires every
numeric computation of the core to be defined on all strings including the
empty one. -/
theorem entropy_empty_string_raises :
    calculate_entropy (fun x => x) "" = none := by
  rfl

/-- C7 (code bug): a response containing no occurrence of any word of the
five emotion-word lists gets intensity 0, but the emotion tag "joy" (the
first key of the dict, which Python's max returns over an all-zero counts
dict), not the neutral tag "neutre", whose return branch is unreachable. -/
theorem detect_no_emotion_word_returns_joy :
    detect_emotional_intensity "abc" = (0, "joy") := by
  have h1 : maxKeyByCount (emotional_words.map
      (fun ew => (ew.1, (ew.2.map
        (fun w => strCount (pyLower "abc") w)).sum))) = some "joy" := by
    decide
  have h2 : ((emotional_words.map
      (fun ew => (ew.1, (ew.2.map
        (fun w => strCount (pyLower "abc") w)).sum))).map
      (fun ec => ec.2)).sum = 0 := by
    decide
  simp only [detect_emotional_intensity, h1]
  rw [h2]
  norm_num [pymin]

/-! ## HomeostaticRegulator (src/craving_ai/homeostasis.py) -/

/-- HomeostaticState (homeostasis.py lines 12-25). -/
structure HomeostaticState where
  pain_level : ℚ
  satisfaction_level : ℚ
  creativity_drive : ℚ
  exploration_tendency : ℚ
  stability_need : ℚ
  temperature : ℚ
  top_p : ℚ
  frequency_penalty : ℚ
  presence_penalty : ℚ

/-- The default HomeostaticState (homeostasis.py lines 15-25). -/
def defaultHomeostaticState : HomeostaticState :=
  ⟨0.5, 0.5, 0.7, 0.6, 0.4, 0.9, 0.8, 0, 0⟩

/-- A reward_history record (homeostasis.py lines 104-109); the wall-clock
timestamp from datetime.now() is not modelled. -/
structure RewardRecord where
  reward : ℚ
  emotion : String
  novelty : ℚ

/-- An adjustment_log record (homeostasis.py lines 189-194): the pain change,
the adjustments dict as a list of (parameter, old, new) triples in insertion
order, and the trigger; the timestamp and the formatted reason strings are
not modelled. -/
structure AdjustmentRecord where
  pain_old : ℚ
  pain_new : ℚ
  adjustments : List (String × ℚ × ℚ)
  trigger_emotion : String
  trigger_novelty : ℚ

/-- The mutable attributes of HomeostaticRegulator (homeostasis.py lines
43-48); the state-file path is not modelled. -/
structure Regulator where
  state : HomeostaticState
  reward_history : List RewardRecord
  pain_history : List ℚ
  adjustment_log : List AdjustmentRecord

/-- Regulation threshold (homeostasis.py line 52). -/
def pain_threshold_high : ℚ := 0.6

/-- Regulation threshold (homeostasis.py line 53). -/
def pain_threshold_low : ℚ := 0.3

/-- The repeated deadband pattern of update_from_interaction (homeostasis.py
lines 140-146, 148-154, 164-170, 172-178): adopt the candidate value and
record the change only when it exceeds the 0.05 deadband. -/
def deadbandStep (old cand : ℚ) (name : String) : ℚ × List (String × ℚ × ℚ) :=
  if pyabs (cand - old) > 0.05 then (cand, [(name, old, cand)]) else (old, [])

/-- HomeostaticRegulator.update_from_interaction (homeostasis.py lines
91-198): append a record to reward_history and pain_history, smooth the pain
level, clamp the satisfaction update, run the threshold-triggered parameter
adjustment with its deadbands, and append the adjustment_log entry
unconditionally.  _save_state (line 196) trims only the serialized copies of
the logs, so the in-memory lists are appended to and never truncated here.
Returns the regulator after the call and the adjustments dict. -/
def update_from_interaction (reg : Regulator) (reward : ℚ) (emotion : String)
    (pain_score novelty_score coherence_score : ℚ) :
    Regulator × List (String × ℚ × ℚ) :=
  let s := reg.state
  let rh := reg.reward_history ++ [⟨reward, emotion, novelty_score⟩]
  let ph := reg.pain_history ++ [pain_score]
  let old_pain := s.pain_level
  let pain1 := s.pain_level * 0.6 + pain_score * 0.4
  let sat1 := pymax 0 (pymin 1 (s.satisfaction_level + reward * 0.4))
  let tta : (ℚ × ℚ × ℚ) × List (String × ℚ × ℚ) :=
    if pain1 > pain_threshold_high then
      let ta := deadbandStep s.temperature (pymin (s.temperature + 0.2) 1.3)
        "temperature"
      let pa := deadbandStep s.top_p (pymin (s.top_p + 0.2) 1.0) "top_p"
      ((ta.1, pa.1, pymin 1 (s.creativity_drive + 0.2)), ta.2 ++ pa.2)
    else if pain1 < pain_threshold_low then
      let ta := deadbandStep s.temperature (pymax (s.temperature - 0.1) 0.7)
        "temperature"
      let pa := deadbandStep s.top_p (pymax (s.top_p - 0.1) 0.7) "top_p"
      ((ta.1, pa.1, s.creativity_drive), ta.2 ++ pa.2)
    else
      ((s.temperature, s.top_p, s.creativity_drive), [])
  let s1 : HomeostaticState :=
    ⟨pain1, sat1, tta.1.2.2, s.exploration_tendency, s.stability_need,
     tta.1.1, tta.1.2.1, s.frequency_penalty, s.presence_penalty⟩
  let al := reg.adjustment_log ++
    [⟨old_pain, pain1, tta.2, emotion, novelty_score⟩]
  (⟨s1, rh, ph, al⟩, tta.2)

/-! ## Helper lemmas about the Python builtins and the deadband -/

theorem pymin_le_left (a b : ℚ) : pymin a b ≤ a := by
  unfold pymin; split_ifs with h <;> linarith

theorem pymin_le_right (a b : ℚ) : pymin a b ≤ b := by
  unfold pymin; split_ifs with h <;> linarith

theorem le_pymin {a b c : ℚ} (h1 : c ≤ a) (h2 : c ≤ b) : c ≤ pymin a b := by
  unfold pymin; split_ifs <;> assumption

theorem left_le_pymax (a b : ℚ) : a ≤ pymax a b := by
  unfold pymax; split_ifs with h <;> linarith

theorem right_le_pymax (a b : ℚ) : b ≤ pymax a b := by
  unfold pymax; split_ifs with h <;> linarith

theorem pymax_le {a b c : ℚ} (h1 : a ≤ c) (h2 : b ≤ c) : pymax a b ≤ c := by
  unfold pymax; split_ifs <;> assumption

theorem deadbandStep_fst (old cand : ℚ) (name : String) :
    (deadbandStep old cand name).1 = old ∨
      (deadbandStep old cand name).1 = cand := by
  unfold deadbandStep; split_ifs <;> simp

/-- Bounds for the deadband pattern: the parameter after the step lies
between the same bounds as the old and the candidate value. -/
theorem deadbandStep_bounds (lo hi old cand : ℚ) (name : String)
    (hold : lo ≤ old ∧ old ≤ hi) (hcand : lo ≤ cand ∧ cand ≤ hi) :
    lo ≤ (deadbandStep old cand name).1 ∧
      (deadbandStep old cand name).1 ≤ hi := by
  rcases deadbandStep_fst old cand name with h | h <;> rw [h]
  · exact hold
  · exact hcand

/-! ## Theorems about the regulator: logs and ranges -/

/-- C10: every call to update_from_interaction appends exactly one record to
each of reward_history, pain_history and adjustment_log; the adjustment_log
entry is appended even when the adjustments dict is empty, so each log grows
by exactly one per interaction (no in-memory trim happens in this method). -/
theorem update_appends_one_record_each (reg : Regulator) (reward : ℚ)
    (emotion : String) (pain_score novelty_score coherence_score : ℚ) :
    (update_from_interaction reg reward emotion pain_score novelty_score
        coherence_score).1.reward_history.length
      = reg.reward_history.length + 1 ∧
    (update_from_interaction reg reward emotion pain_score novelty_score
        coherence_score).1.pain_history.length
      = reg.pain_history.length + 1 ∧
    (update_from_interaction reg reward emotion pain_score novelty_score
        coherence_score).1.adjustment_log.length
      = reg.adjustment_log.length + 1 := by
  refine ⟨?_, ?_, ?_⟩ <;> simp [update_from_interaction]

/-- The documented ranges of HomeostaticState: the five drive fields in
[0,1], temperature in [0.1,1.3], top_p in [0,1], penalties non-negative. -/
def stateInRanges (s : HomeostaticState) : Prop :=
  0 ≤ s.pain_level ∧ s.pain_level ≤ 1 ∧
  0 ≤ s.satisfaction_level ∧ s.satisfaction_level ≤ 1 ∧
  0 ≤ s.creativity_drive ∧ s.creativity_drive ≤ 1 ∧
  0 ≤ s.exploration_tendency ∧ s.exploration_tendency ≤ 1 ∧
  0 ≤ s.stability_need ∧ s.stability_need ≤ 1 ∧
  0.1 ≤ s.temperature ∧ s.temperature ≤ 1.3 ∧
  0 ≤ s.top_p ∧ s.top_p ≤ 1 ∧
  0 ≤ s.frequency_penalty ∧ 0 ≤ s.presence_penalty

/-- C4: if the inputs lie in their documented ranges (reward in [-1,1], the
scores in [0,1]) and the state satisfies its documented ranges before a call
to update_from_interaction, then it satisfies them again immediately after
the call returns. -/
theorem update_preserves_ranges (reg : Regulator) (reward : ℚ)
    (emotion : String) (pain_score novelty_score coherence_score : ℚ)
    (hr0 : -1 ≤ reward) (hr1 : reward ≤ 1)
    (hq0 : 0 ≤ pain_score) (hq1 : pain_score ≤ 1)
    (hn0 : 0 ≤ novelty_score) (hn1 : novelty_score ≤ 1)
    (hc0 : 0 ≤ coherence_score) (hc1 : coherence_score ≤ 1)
    (hs : stateInRanges reg.state) :
    stateInRanges (update_from_interaction reg reward emotion pain_score
      novelty_score coherence_score).1.state := by
  obtain ⟨h1, h2, h3, h4, h5, h6, h7, h8, h9, h10, h11, h12, h13, h14, h15,
    h16⟩ := hs
  simp only [update_from_interaction, stateInRanges, pain_threshold_high,
    pain_threshold_low]
  split_ifs with hhi hlo
  · obtain ⟨ht1, ht2⟩ := deadbandStep_bounds 0.1 1.3 reg.state.temperature
      (pymin (reg.state.temperature + 0.2) 1.3) "temperature" ⟨h11, h12⟩
      ⟨le_pymin (by linarith) (by norm_num), pymin_le_right _ _⟩
    obtain ⟨hq1, hq2⟩ := deadbandStep_bounds 0 1 reg.state.top_p
      (pymin (reg.state.top_p + 0.2) 1.0) "top_p" ⟨h13, h14⟩
      ⟨le_pymin (by linarith) (by norm_num),
        le_trans (pymin_le_right _ _) (by norm_num)⟩
    exact ⟨by linarith, by linarith,
      left_le_pymax _ _, pymax_le (by norm_num) (pymin_le_left _ _),
      le_pymin (by norm_num) (by linarith), pymin_le_left _ _,
      h7, h8, h9, h10, ht1, ht2, hq1, hq2, h15, h16⟩
  · obtain ⟨ht1, ht2⟩ := deadbandStep_bounds 0.1 1.3 reg.state.temperature
      (pymax (reg.state.temperature - 0.1) 0.7) "temperature" ⟨h11, h12⟩
      ⟨le_trans (by norm_num) (right_le_pymax _ _),
        pymax_le (by linarith) (by norm_num)⟩
    obtain ⟨hq1, hq2⟩ := deadbandStep_bounds 0 1 reg.state.top_p
      (pymax (reg.state.top_p - 0.1) 0.7) "top_p" ⟨h13, h14⟩
      ⟨le_trans (by norm_num) (right_le_pymax _ _),
        pymax_le (by linarith) (by norm_num)⟩
    exact ⟨by linarith, by linarith,
      left_le_pymax _ _, pymax_le (by norm_num) (pymin_le_left _ _),
      h5, h6, h7, h8, h9, h10, ht1, ht2, hq1, hq2, h15, h16⟩
  · exact ⟨by linarith, by linarith,
      left_le_pymax _ _, pymax_le (by norm_num) (pymin_le_left _ _),
      h5, h6, h7, h8, h9, h10, h11, h12, h13, h14, h15, h16⟩

/-- Witness for update_preserves_ranges at the default state with the
repository test's own interaction values. -/
theorem update_preserves_ranges_witness :
    stateInRanges (update_from_interaction
      ⟨defaultHomeostaticState, [], [], []⟩ (-0.5) "frustration" 0.8 0.3
      0.4).1.state :=
  update_preserves_ranges ⟨defaultHomeostaticState, [], [], []⟩ (-0.5)
    "frustration" 0.8 0.3 0.4 (by norm_num) (by norm_num) (by norm_num)
    (by norm_num) (by norm_num) (by norm_num) (by norm_num) (by norm_num)
    (by norm_num [stateInRanges, defaultHomeostaticState])

/-! ## Temperature traces over sequences of interactions -/

/-- The per-call arguments of update_from_interaction other than the pain
score, for sequences of calls sharing one pain score. -/
structure CallArgs where
  reward : ℚ
  emotion : String
  novelty : ℚ
  coherence : ℚ

/-- The regulator after one update with the given shared pain score and
per-call arguments. -/
def stepCall (ps : ℚ) (reg : Regulator) (c : CallArgs) : Regulator :=
  (update_from_interaction reg c.reward c.emotion ps c.novelty c.coherence).1

/-- The temperature field before the first and after each update of a
sequence of calls sharing one pain score. -/
def temperatureTrace (ps : ℚ) (reg : Regulator) (calls : List CallArgs) :
    List ℚ :=
  (calls.scanl (stepCall ps) reg).map (fun r => r.state.temperature)

theorem temperatureTrace_nil (ps : ℚ) (reg : Regulator) :
    temperatureTrace ps reg [] = [reg.state.temperature] := by
  simp [temperatureTrace]

theorem temperatureTrace_cons (ps : ℚ) (reg : Regulator) (c : CallArgs)
    (cs : List CallArgs) :
    temperatureTrace ps reg (c :: cs) =
      reg.state.temperature ::
        temperatureTrace ps (stepCall ps reg c) cs := by
  simp [temperatureTrace, List.scanl_cons]

theorem temperatureTrace_head (ps : ℚ) (reg : Regulator)
    (calls : List CallArgs) :
    (temperatureTrace ps reg calls).head? = some reg.state.temperature := by
  cases calls <;> simp [temperatureTrace_nil, temperatureTrace_cons]

/-- A step-local invariant and temperature relation lift to the whole trace
of a sequence of calls. -/
theorem trace_chain_of_step {Inv : Regulator → Prop} {R : ℚ → ℚ → Prop}
    {B : ℚ → Prop} (ps : ℚ)
    (hstep : ∀ reg c, Inv reg → Inv (stepCall ps reg c) ∧
      R reg.state.temperature (stepCall ps reg c).state.temperature)
    (hB : ∀ reg, Inv reg → B reg.state.temperature) :
    ∀ (calls : List CallArgs) (reg : Regulator), Inv reg →
      List.Chain' R (temperatureTrace ps reg calls) ∧
      ∀ t ∈ temperatureTrace ps reg calls, B t := by
  intro calls
  induction calls with
  | nil =>
    intro reg hreg
    refine ⟨by simp [temperatureTrace_nil], ?_⟩
    simp only [temperatureTrace_nil, List.mem_singleton]
    rintro t rfl
    exact hB reg hreg
  | cons c cs ih =>
    intro reg hreg
    obtain ⟨hInv, hR⟩ := hstep reg c hreg
    obtain ⟨hchain, hall⟩ := ih (stepCall ps reg c) hInv
    rw [temperatureTrace_cons]
    refine ⟨?_, ?_⟩
    · rw [List.chain'_cons']
      refine ⟨?_, hchain⟩
      intro y hy
      rw [temperatureTrace_head] at hy
      simp only [Option.mem_def, Option.some.injEq] at hy
      rw [hy] at hR
      exact hR
    · intro t ht
      rcases List.mem_cons.mp ht with h | h
      · rw [h]
        exact hB reg hreg
      · exact hall t h

/-- One update with pain score 0.9, from a state with pain_level in [0,1]
and temperature in [0.1,1.3], keeps those ranges and cannot decrease the
temperature. -/
theorem stepCall09_mono (reg : Regulator) (c : CallArgs)
    (hp0 : 0 ≤ reg.state.pain_level) (hp1 : reg.state.pain_level ≤ 1)
    (ht0 : 0.1 ≤ reg.state.temperature) (ht1 : reg.state.temperature ≤ 1.3) :
    ((0 ≤ (stepCall 0.9 reg c).state.pain_level ∧
      (stepCall 0.9 reg c).state.pain_level ≤ 1) ∧
     (0.1 ≤ (stepCall 0.9 reg c).state.temperature ∧
      (stepCall 0.9 reg c).state.temperature ≤ 1.3)) ∧
    reg.state.temperature ≤ (stepCall 0.9 reg c).state.temperature := by
  simp only [stepCall, update_from_interaction, pain_threshold_high,
    pain_threshold_low]
  split_ifs with hhi hlo
  · rcases deadbandStep_fst reg.state.temperature
        (pymin (reg.state.temperature + 0.2) 1.3) "temperature" with h | h <;>
      simp only [h]
    · exact ⟨⟨⟨by linarith, by linarith⟩, ht0, ht1⟩, le_refl _⟩
    · exact ⟨⟨⟨by linarith, by linarith⟩,
        le_pymin (by linarith) (by norm_num), pymin_le_right _ _⟩,
        le_pymin (by linarith) ht1⟩
  · exfalso
    linarith
  · exact ⟨⟨⟨by linarith, by linarith⟩, ht0, ht1⟩, le_refl _⟩

/-- One update with pain score 0.1, from a state with pain_level in
[0, 14/15] and temperature in [0.7,1.3], keeps those ranges and cannot
increase the temperature. -/
theorem stepCall01_mono (reg : Regulator) (c : CallArgs)
    (hp0 : 0 ≤ reg.state.pain_level)
    (hp1 : reg.state.pain_level ≤ 14 / 15)
    (ht0 : 0.7 ≤ reg.state.temperature) (ht1 : reg.state.temperature ≤ 1.3) :
    ((0 ≤ (stepCall 0.1 reg c).state.pain_level ∧
      (stepCall 0.1 reg c).state.pain_level ≤ 14 / 15) ∧
     (0.7 ≤ (stepCall 0.1 reg c).state.temperature ∧
      (stepCall 0.1 reg c).state.temperature ≤ 1.3)) ∧
    (stepCall 0.1 reg c).state.temperature ≤ reg.state.temperature := by
  simp only [stepCall, update_from_interaction, pain_threshold_high,
    pain_threshold_low]
  split_ifs with hhi hlo
  · exfalso
    linarith
  · rcases deadbandStep_fst reg.state.temperature
        (pymax (reg.state.temperature - 0.1) 0.7) "temperature" with h | h <;>
      simp only [h]
    · exact ⟨⟨⟨by linarith, by linarith⟩, ht0, ht1⟩, le_refl _⟩
    · exact ⟨⟨⟨by linarith, by linarith⟩,
        right_le_pymax _ _, by
          have := pymax_le (show reg.state.temperature - 0.1 ≤
            reg.state.temperature by linarith) ht0
          linarith⟩,
        pymax_le (by linarith) ht0⟩
  · exact ⟨⟨⟨by linarith, by linarith⟩, ht0, ht1⟩, le_refl _⟩

/-- C3 (amended): from any start state with pain_level in [0,1] and
temperature in [0.1,1.3], a sequence of updates all with painScore = 0.9
yields a non-decreasing temperature trace that never exceeds 1.3, as the
claim states.  For sequences all with painScore = 0.1, the claimed
non-increasing trace staying at or above 0.7 additionally requires the start
state to have pain_level at most 14/15 and temperature at least 0.7:
otherwise the first update can increase the temperature (see the
counterexample). -/
theorem temperature_monotone_amended (reg : Regulator)
    (hp0 : 0 ≤ reg.state.pain_level) (hp1 : reg.state.pain_level ≤ 1)
    (ht0 : 0.1 ≤ reg.state.temperature) (ht1 : reg.state.temperature ≤ 1.3) :
    (∀ calls : List CallArgs,
      List.Chain' (fun a b => a ≤ b) (temperatureTrace 0.9 reg calls) ∧
      ∀ t ∈ temperatureTrace 0.9 reg calls, t ≤ 1.3) ∧
    (reg.state.pain_level ≤ 14 / 15 → 0.7 ≤ reg.state.temperature →
      ∀ calls : List CallArgs,
        List.Chain' (fun a b => b ≤ a) (temperatureTrace 0.1 reg calls) ∧
        ∀ t ∈ temperatureTrace 0.1 reg calls, 0.7 ≤ t ∧ t ≤ 1.3) := by
  constructor
  · intro calls
    exact @trace_chain_of_step
      (fun r => (0 ≤ r.state.pain_level ∧ r.state.pain_level ≤ 1) ∧
        (0.1 ≤ r.state.temperature ∧ r.state.temperature ≤ 1.3))
      (fun a b => a ≤ b) (fun t => t ≤ 1.3) 0.9
      (fun r c hr => stepCall09_mono r c hr.1.1 hr.1.2 hr.2.1 hr.2.2)
      (fun r hr => hr.2.2) calls reg ⟨⟨hp0, hp1⟩, ht0, ht1⟩
  · intro hple ht07 calls
    exact @trace_chain_of_step
      (fun r => (0 ≤ r.state.pain_level ∧ r.state.pain_level ≤ 14 / 15) ∧
        (0.7 ≤ r.state.temperature ∧ r.state.temperature ≤ 1.3))
      (fun a b => b ≤ a) (fun t => 0.7 ≤ t ∧ t ≤ 1.3) 0.1
      (fun r c hr => stepCall01_mono r c hr.1.1 hr.1.2 hr.2.1 hr.2.2)
      (fun r hr => hr.2) calls reg ⟨⟨hp0, hple⟩, ht07, ht1⟩

/-- Witness for temperature_monotone_amended at the default state, one call
with painScore 0.9. -/
theorem temperature_monotone_amended_witness :
    List.Chain' (fun a b => a ≤ b) (temperatureTrace 0.9
      ⟨defaultHomeostaticState, [], [], []⟩
      [⟨-0.5, "frustration", 0.3, 0.4⟩]) ∧
    ∀ t ∈ temperatureTrace 0.9 ⟨defaultHomeostaticState, [], [], []⟩
      [⟨-0.5, "frustration", 0.3, 0.4⟩], t ≤ 1.3 :=
  (temperature_monotone_amended ⟨defaultHomeostaticState, [], [], []⟩
    (by norm_num [defaultHomeostaticState])
    (by norm_num [defaultHomeostaticState])
    (by norm_num [defaultHomeostaticState])
    (by norm_num [defaultHomeostaticState])).1
    [⟨-0.5, "frustration", 0.3, 0.4⟩]

/-- C3 counterexample: two start states allowed by the claim (temperature in
[0.1,1.3], pain_level a valid drive value) on which one painScore = 0.1
update strictly increases the temperature, so the claimed non-increasing
trace fails.  First state: pain_level 1, temperature 0.9 (the smoothed pain
0.64 still exceeds the high threshold, boosting temperature to 1.1).
Second state: pain_level 0, temperature 0.1 (the low-pain branch computes
max(temperature - 0.1, 0.7) = 0.7, raising the temperature). -/
theorem temperature_monotone_counterexample :
    ¬ List.Chain' (fun a b => b ≤ a)
      (temperatureTrace 0.1
        ⟨⟨1, 0.5, 0.7, 0.6, 0.4, 0.9, 0.8, 0, 0⟩, [], [], []⟩
        [⟨0, "r", 0.5, 0.5⟩]) ∧
    ¬ List.Chain' (fun a b => b ≤ a)
      (temperatureTrace 0.1
        ⟨⟨0, 0.5, 0.7, 0.6, 0.4, 0.1, 0.8, 0, 0⟩, [], [], []⟩
        [⟨0, "r", 0.5, 0.5⟩]) := by
  constructor <;>
  · rw [temperatureTrace_cons, temperatureTrace_nil]
    norm_num [stepCall, update_from_interaction, deadbandStep, pymin, pymax,
      pyabs, pain_threshold_high, pain_threshold_low, List.chain'_cons,
      List.chain'_singleton]

/-! ## CriticalAnalyzer.novelty_score (src/craving_ai/analyzer.py) -/

/-- Python list slicing l[-n:]: the last n elements. -/
def lastN {α : Type} (n : ℕ) (l : List α) : List α := l.drop (l.length - n)

/-- CriticalAnalyzer.novelty_score (analyzer.py lines 61-76).  The direct
textual similarity difflib.SequenceMatcher(None, past, response).ratio() is
a call into the Python standard library and is abstracted as the argument
ratio, applied as ratio past response in the source's argument order; the
loop keeps the running maximum similarity over the last 3 history items,
starting from 0. -/
def novelty_score (ratio : String → String → ℚ) (response : String)
    (history : List String) : ℚ :=
  if history = [] then 1
  else 1 -
    (lastN 3 history).foldl (fun m past => pymax m (ratio past response)) 0

theorem pymax_cases (a b : ℚ) : pymax a b = a ∨ pymax a b = b := by
  unfold pymax; split_ifs <;> simp

/-- Folding pymax from an accumulator either returns the accumulator, which
then bounds the list, or a maximal element of the list at least the
accumulator. -/
theorem foldl_pymax_acc (l : List ℚ) : ∀ a : ℚ,
    (l.foldl pymax a = a ∧ ∀ x ∈ l, x ≤ a) ∨
    (l.foldl pymax a ∈ l ∧ a ≤ l.foldl pymax a ∧
      ∀ x ∈ l, x ≤ l.foldl pymax a) := by
  induction l with
  | nil =>
    intro a
    exact Or.inl ⟨rfl, by simp⟩
  | cons b xs ih =>
    intro a
    rw [List.foldl_cons]
    rcases ih (pymax a b) with ⟨he, hub⟩ | ⟨hm, hge, hub⟩
    · rcases pymax_cases a b with hab | hab
      · refine Or.inl ⟨he.trans hab, ?_⟩
        intro x hx
        rcases List.mem_cons.mp hx with hx | hx
        · rw [hx]
          exact hab ▸ right_le_pymax a b
        · exact hab ▸ hub x hx
      · refine Or.inr ⟨?_, ?_, ?_⟩
        · rw [he.trans hab]
          exact List.mem_cons_self b xs
        · rw [he]
          exact left_le_pymax a b
        · intro x hx
          rw [he]
          rcases List.mem_cons.mp hx with hx | hx
          · rw [hx]
            exact right_le_pymax a b
          · exact hub x hx
    · refine Or.inr ⟨List.mem_cons_of_mem b hm, ?_, ?_⟩
      · exact (left_le_pymax a b).trans hge
      · intro x hx
        rcases List.mem_cons.mp hx with hx | hx
        · rw [hx]
          exact (right_le_pymax a b).trans hge
        · exact hub x hx

/-- On a non-empty list of non-negative rationals, foldl pymax 0 is the
maximum: a member bounding every element. -/
theorem foldl_pymax_max (l : List ℚ) (hne : l ≠ [])
    (hnn : ∀ x ∈ l, 0 ≤ x) :
    l.foldl pymax 0 ∈ l ∧ ∀ x ∈ l, x ≤ l.foldl pymax 0 := by
  rcases foldl_pymax_acc l 0 with ⟨he, hub⟩ | h
  · rcases l with _ | ⟨b, xs⟩
    · exact absurd rfl hne
    · have hb0 : b = 0 := le_antisymm (hub b (by simp)) (hnn b (by simp))
      rw [he]
      exact ⟨hb0 ▸ List.mem_cons_self b xs, hub⟩
  · exact ⟨h.1, h.2.2⟩

/-- C8: for any direct-similarity function ratio: the novelty of any text
against an empty history is exactly 1; against the history holding exactly
that text it is exactly 0 whenever ratio gives identical strings similarity
1 (the documented behaviour of difflib's SequenceMatcher.ratio); and in
general, for a non-empty history whose similarities to the text are
non-negative (ratio is a ratio, hence non-negative), the novelty equals
1 minus the maximum of the direct similarities against the last 3 history
items. -/
theorem novelty_score_spec (ratio : String → String → ℚ) :
    (∀ t, novelty_score ratio t [] = 1) ∧
    (∀ t, ratio t t = 1 → novelty_score ratio t [t] = 0) ∧
    (∀ t h, h ≠ [] → (∀ p ∈ lastN 3 h, 0 ≤ ratio p t) →
      ∃ m, m ∈ (lastN 3 h).map (fun p => ratio p t) ∧
        (∀ x ∈ (lastN 3 h).map (fun p => ratio p t), x ≤ m) ∧
        novelty_score ratio t h = 1 - m) := by
  refine ⟨?_, ?_, ?_⟩
  · intro t
    simp [novelty_score]
  · intro t hratio
    simp [novelty_score, lastN, hratio, pymax]
    norm_num
  · intro t h hne hnn
    have hmapne : (lastN 3 h).map (fun p => ratio p t) ≠ [] := by
      simp only [ne_eq, List.map_eq_nil_iff]
      intro hdrop
      rw [lastN, List.drop_eq_nil_iff] at hdrop
      rcases h with _ | ⟨b, xs⟩
      · exact hne rfl
      · simp at hdrop
        omega
    have hmapnn : ∀ x ∈ (lastN 3 h).map (fun p => ratio p t), 0 ≤ x := by
      intro x hx
      rcases List.mem_map.mp hx with ⟨p, hp, hpx⟩
      exact hpx ▸ hnn p hp
    obtain ⟨hmem, hub⟩ := foldl_pymax_max _ hmapne hmapnn
    refine ⟨((lastN 3 h).map (fun p => ratio p t)).foldl pymax 0, hmem, hub,
      ?_⟩
    rw [novelty_score, if_neg hne, List.foldl_map]

/-- Witness for novelty_score_spec at a concrete similarity function (1 on
identical strings, 0 otherwise) and a concrete text. -/
theorem novelty_score_spec_witness :
    novelty_score (fun a b => if a = b then 1 else 0) "abc" [] = 1 ∧
    novelty_score (fun a b => if a = b then 1 else 0) "abc" ["abc"] = 0 :=
  ⟨(novelty_score_spec (fun a b => if a = b then 1 else 0)).1 "abc",
    (novelty_score_spec (fun a b => if a = b then 1 else 0)).2.1 "abc"
      (by simp)⟩

/-! ## Model-tier selection (src/craving_ai/llm_wrapper.py) -/

/-- The default generation tier (llm_wrapper.py line 24). -/
def DEFAULT_MODEL : String := "gpt-4o-mini"

/-- The higher-capability generation tier (llm_wrapper.py line 25). -/
def ALT_MODEL : String := "gpt-4o"

/-- pick_model (llm_wrapper.py lines 28-39): the dict lookup
state.get("pain_level", 0.0) is modelled as an optional rational defaulting
to 0; the other entries of the state dict are never read. -/
def pick_model (painLevel : Option ℚ) : String :=
  if painLevel.getD 0 > 0.6 then ALT_MODEL else DEFAULT_MODEL

/-- C9: pick_model returns the higher-capability tier exactly when the
looked-up pain level strictly exceeds 0.6, and the default tier exactly
otherwise, for every homeostatic state input. -/
theorem pick_model_rule (painLevel : Option ℚ) :
    (pick_model painLevel = ALT_MODEL ↔ painLevel.getD 0 > 0.6) ∧
    (pick_model painLevel = DEFAULT_MODEL ↔
      ¬ (painLevel.getD 0 > 0.6)) := by
  unfold pick_model ALT_MODEL DEFAULT_MODEL
  split_ifs with h <;> simp [h]

/-! ## RewardEngine._calculate_relevance (src/craving_ai/reward_engine.py) -/

/-- A word character in the sense of sklearn's default token pattern (two
or more word characters between word boundaries), restricted to ASCII as in
every input evaluated below. -/
def wordChar (c : Char) : Bool := c.isAlphanum || c = '_'

/-- The tokens sklearn's TfidfVectorizer extracts from a document:
lower-case the text, take the maximal runs of word characters, keep those
of length at least 2, drop English stop words.  The concrete stop-word list
is abstracted as the parameter stopWords; no property below depends on its
contents. -/
def sklearnTokens (stopWords : List String) (s : String) : List String :=
  ((((pyLower s).data.splitOnP (fun c => !(wordChar c))).filter
      (fun w => w.length ≥ 2)).map String.mk).filter
    (fun t => t ∉ stopWords)

/-- RewardEngine._calculate_relevance (reward_engine.py lines 68-86): a
single call into sklearn fitting a TF-IDF vectorizer on the prompt and the
response and returning their cosine similarity.  The numeric similarity is
abstracted as the parameter sim; TfidfVectorizer.fit_transform raises
ValueError (empty vocabulary) exactly when neither document contributes a
token, modelled by the none result.  The history parameter mirrors the
engine's memory_responses attribute, which this method never reads: no
branch inspects it, and the method installs no exception handler. -/
def calculate_relevance (history : List String) (stopWords : List String)
    (sim : String → String → ℚ) (prompt response : String) : Option ℚ :=
  if sklearnTokens stopWords prompt ++ sklearnTokens stopWords response = []
  then none
  else some (sim prompt response)

/-- The relevance computation as the specification describes it, stated for
comparison: neutral 0.7 with fewer than 2 history entries, otherwise a
normalized overlap measure with fallback 0.5 when that computation fails. -/
def relevance_as_specified (history : List String)
    (overlap : String → String → Option ℚ) (prompt response : String) : ℚ :=
  if history.length < 2 then 0.7
  else (overlap prompt response).getD 0.5

/-- C6 counterexample: with an empty history (fewer than 2 entries) the
claim requires the neutral value 0.7, but on the one-letter documents "a"
and "b" the code's relevance computation raises (empty vocabulary: the
token pattern needs two word characters, so no token survives), returning
neither 0.7 nor the 0.5 fallback, and this for every similarity oracle; the
spec-described computation does return 0.7 there. -/
theorem relevance_neutral_counterexample :
    calculate_relevance [] [] (fun x y => 0) "a" "b" = none ∧
    relevance_as_specified [] (fun x y => none) "a" "b" = 0.7 ∧
    (none : Option ℚ) ≠ some 0.7 ∧ (none : Option ℚ) ≠ some 0.5 := by
  refine ⟨?_, ?_, by simp, by simp⟩
  · rw [calculate_relevance, if_pos (by decide)]
  · norm_num [relevance_as_specified]

/-- C6 (amended): _calculate_relevance ignores the history entirely and
always computes the TF-IDF cosine similarity of the prompt/response pair:
there is no neutral-0.7 short-history branch and no 0.5 failure fallback.
The result is identical for any two history values; when the pair yields at
least one token it is the similarity itself, and when it yields no token
the vectorizer's ValueError propagates. -/
theorem relevance_ignores_history (h1 h2 : List String)
    (stopWords : List String) (sim : String → String → ℚ)
    (prompt response : String) :
    calculate_relevance h1 stopWords sim prompt response =
      calculate_relevance h2 stopWords sim prompt response ∧
    (sklearnTokens stopWords prompt ++ sklearnTokens stopWords response ≠ []
      → calculate_relevance h1 stopWords sim prompt response =
          some (sim prompt response)) ∧
    (sklearnTokens stopWords prompt ++ sklearnTokens stopWords response = []
      → calculate_relevance h1 stopWords sim prompt response = none) := by
  unfold calculate_relevance
  split_ifs with h <;> simp [h]
